import Mathlib

/-
Verification development for the atlas.js slippy-map library.

The library is shallowly embedded: JavaScript numbers driving the geometry
are modelled as real numbers, the dynamic NaN check of the LatLng
constructor is modelled over an explicit JS-number datatype, tile keys are
integer triples, and the mutable map object is modelled as a state record
threaded through the view operations.
-/

/- ===================== JS number model (LatLng constructor) ============ -/

/-- Model of a JavaScript number for the constructor-time validation of
LatLng: either a finite value, one of the two infinities, or NaN. -/
inductive JSNumber where
  | finite (q : ℚ)
  | posInf
  | negInf
  | nan
deriving DecidableEq

/-- Model of the JavaScript isNaN test on a number: true exactly on NaN. -/
def JSNumber.isNaN : JSNumber → Bool
  | .nan => true
  | _ => false

/-- Model of the JavaScript Number.isFinite test: true exactly on finite
values, false on both infinities and on NaN. -/
def JSNumber.isFinite : JSNumber → Bool
  | .finite _ => true
  | _ => false

/-- The lat and lng fields stored by a successfully constructed LatLng. -/
structure LatLngJS where
  lat : JSNumber
  lng : JSNumber
deriving DecidableEq

/-- Embeds the LatLng constructor: it throws the error Invalid LatLng when
isNaN holds of either argument, and otherwise stores both components
unchanged (the unary plus of the source is the identity on numbers). -/
def LatLngJS.make (lat lng : JSNumber) : Except String LatLngJS :=
  if lat.isNaN || lng.isNaN then .error "Invalid LatLng" else .ok ⟨lat, lng⟩

/- ===================== Event system (Evented.off) ====================== -/

/-- The possible shapes of the first argument of Evented.off as it is used
in the source: absent, a string of event types, or an array of type
names. -/
inductive TypesArg where
  | undef
  | str (s : String)
  | arr (l : List String)

/-- The listener table of an Evented instance: an association list from
event-type name to the identities of the registered listener functions
(listener functions are compared by reference in the source, modelled here
by a numeric identity). -/
abbrev EventMap := List (String × List Nat)

/-- Assignment to a key of the listener table: replaces the value of an
existing key in place, appends a fresh key at the end, as a JavaScript
object does. -/
def eventSet : EventMap → String → List Nat → EventMap
  | [], t, ls => [(t, ls)]
  | (k, v) :: rest, t, ls =>
      if k = t then (k, ls) :: rest else (k, v) :: eventSet rest t ls

/-- The delete operator on a key of the listener table. -/
def eventDelete (ev : EventMap) (t : String) : EventMap :=
  ev.filter (fun kv => kv.1 ≠ t)

/-- One iteration of the loop body of Evented.off for a single type name:
with a function reference, the entry is replaced by the listeners whose
function differs from it (an absent entry becomes the empty list); without
one, the entry is deleted. -/
def offOne (fn : Option Nat) (ev : EventMap) (t : String) : EventMap :=
  match fn with
  | some f => eventSet ev t (((ev.lookup t).getD []).filter (fun g => g ≠ f))
  | none => eventDelete ev t

/-- Embeds Evented.off. The source evaluates
(types || Object.keys(this._events)).flat(): a non-empty string is truthy
and has no flat method, so that call throws a TypeError; an absent or
empty-string types argument falls back to the list of all keys, and an
array argument flattens to itself. -/
def Evented.off (ev : EventMap) (types : TypesArg) (fn : Option Nat) :
    Except String EventMap :=
  match types with
  | .str s =>
      if s = "" then .ok ((ev.map Prod.fst).foldl (offOne fn) ev)
      else .error "TypeError: types.flat is not a function"
  | .arr l => .ok (l.foldl (offOne fn) ev)
  | .undef => .ok ((ev.map Prod.fst).foldl (offOne fn) ev)

/- ===================== Tile x wraparound =============================== -/

/-- Embeds TileLayer._wrapX: worldWidth = 2^zoom and
((x % worldWidth) + worldWidth) % worldWidth, where % is the truncated
remainder of JavaScript. -/
def wrapX (x : ℤ) (zoom : ℕ) : ℤ :=
  let worldWidth : ℤ := 2 ^ zoom
  ((x.tmod worldWidth) + worldWidth).tmod worldWidth

/- ===================== Tile URL template =============================== -/

/-- Whether the pattern is a leading piece of the character list. -/
def listStartsWith : List Char → List Char → Bool
  | [], _ => true
  | _ :: _, [] => false
  | p :: ps, c :: cs => p = c && listStartsWith ps cs

/-- Whether the pattern occurs as a contiguous run anywhere in the
character list. -/
def containsSub (pat : List Char) : List Char → Bool
  | [] => listStartsWith pat []
  | c :: rest => listStartsWith pat (c :: rest) || containsSub pat rest

/-- Embeds String.prototype.replace with a plain string pattern: only the
first occurrence of the pattern is replaced, and the rest of the string is
copied unchanged; a string without the pattern is returned as is. -/
def replaceFirst (pat rep : List Char) : List Char → List Char
  | [] => if listStartsWith pat [] then rep else []
  | c :: rest =>
      if listStartsWith pat (c :: rest) then rep ++ (c :: rest).drop pat.length
      else c :: replaceFirst pat rep rest

/-- Embeds TileLayer._getTileUrl: the template with {x}, then {y}, then
{z} each passed once through replace with the decimal rendering of the
tile coordinate. -/
def TileLayer.getTileUrl (url : String) (x y z : ℤ) : String :=
  ⟨replaceFirst "{z}".data (toString z).data
    (replaceFirst "{y}".data (toString y).data
      (replaceFirst "{x}".data (toString x).data url.data))⟩

/- ===================== Geometry over the reals ========================= -/

noncomputable section

/-- Embeds Point: a planar pixel coordinate. -/
structure Point where
  x : ℝ
  y : ℝ

/-- Embeds Point.add. -/
def Point.add (p q : Point) : Point := ⟨p.x + q.x, p.y + q.y⟩

/-- Embeds Point.subtract. -/
def Point.subtract (p q : Point) : Point := ⟨p.x - q.x, p.y - q.y⟩

/-- Embeds Point.multiplyBy. -/
def Point.multiplyBy (p : Point) (k : ℝ) : Point := ⟨p.x * k, p.y * k⟩

/-- Embeds Point.divideBy. -/
def Point.divideBy (p : Point) (k : ℝ) : Point := ⟨p.x / k, p.y / k⟩

/-- Model of JavaScript Math.round: the floor of the argument plus one
half (ties go toward positive infinity). -/
def jsRound (r : ℝ) : ℤ := ⌊r + 1 / 2⌋

/-- Embeds Point.round: Math.round applied to each component. -/
def Point.round (p : Point) : Point := ⟨(jsRound p.x : ℝ), (jsRound p.y : ℝ)⟩

/-- The method names declared in the body of the Point class of the
source, in order. Method access on a Point instance resolves against this
list; any other name yields undefined. -/
def Point.methodNames : List String :=
  ["constructor", "add", "subtract", "multiplyBy", "divideBy",
   "distanceTo", "clone", "equals", "round"]

/-- Embeds LatLng as used by the projection and the map view: a pair of
degree coordinates. -/
structure LatLng where
  lat : ℝ
  lng : ℝ

/-- Embeds Bounds as produced from two corner points: extend with each of
them computes the componentwise minimum and maximum. -/
structure Bounds where
  min : Point
  max : Point

/-- Embeds new Bounds(a, b): extend folds both corners into componentwise
minima and maxima. -/
def Bounds.ofCorners (a b : Point) : Bounds :=
  ⟨⟨Min.min a.x b.x, Min.min a.y b.y⟩, ⟨Max.max a.x b.x, Max.max a.y b.y⟩⟩

/- ===================== Web Mercator projection ========================= -/

/-- Embeds the earthRadius constant. -/
def earthRadius : ℝ := 6378137

/-- Embeds the MAX_LATITUDE clamp constant. -/
def maxLatitude : ℝ := 85.0511287798

/-- Embeds the top-level project function: clamp the latitude to the
mercator range, then x = R times lng in radians and
y = R times log((1+sin)/(1-sin))/2. -/
def CRS.project (ll : LatLng) : Point :=
  let d := Real.pi / 180
  let lat := max (min maxLatitude ll.lat) (-maxLatitude)
  let s := Real.sin (lat * d)
  ⟨earthRadius * ll.lng * d, earthRadius * Real.log ((1 + s) / (1 - s)) / 2⟩

/-- Embeds the top-level unproject function. -/
def CRS.unproject (p : Point) : LatLng :=
  let d := 180 / Real.pi
  ⟨(2 * Real.arctan (Real.exp (p.y / earthRadius)) - Real.pi / 2) * d,
   p.x * d / earthRadius⟩

/-- Embeds CRS.scale: 256 times 2 to the zoom. -/
def CRS.scale (zoom : ℝ) : ℝ := 256 * (2 : ℝ) ^ zoom

/- ===================== Map view state ================================== -/

/-- The per-instance view state of a Map object: the bookkeeping fields
_center, _zoom, _pixelOrigin, the (fixed) viewport size read from the
container, the rendered position of the map pane, and the list of events
fired so far, in order. -/
structure MapState where
  center : LatLng
  zoom : ℝ
  size : Point
  pixelOrigin : Point
  panePos : Point
  events : List String

/-- Embeds Map.project: the CRS projection scaled into pixel space for the
given zoom. -/
def Map.project (ll : LatLng) (zoom : ℝ) : Point :=
  (CRS.project ll).multiplyBy (CRS.scale zoom / earthRadius)

/-- Embeds Map.unproject: divide out the pixel scale, then invert the CRS
projection. -/
def Map.unproject (p : Point) (zoom : ℝ) : LatLng :=
  CRS.unproject (p.divideBy (CRS.scale zoom / earthRadius))

/-- Embeds Map.latLngToContainerPoint: project at the current zoom,
subtract the pixel origin, round componentwise. -/
def Map.latLngToContainerPoint (s : MapState) (ll : LatLng) : Point :=
  ((Map.project ll s.zoom).subtract s.pixelOrigin).round

/-- Embeds Map.getPixelBounds: the bounds from the pixel origin to the
pixel origin plus the viewport size. -/
def Map.getPixelBounds (s : MapState) : Bounds :=
  Bounds.ofCorners s.pixelOrigin (s.pixelOrigin.add s.size)

/-- Embeds Map.setView: store center and zoom, recompute the pixel origin
as the projected center minus half the viewport size, then _resetView
moves the map pane back to the identity position and fires moveend. -/
def Map.setView (s : MapState) (ll : LatLng) (zoom : ℝ) : MapState :=
  { s with
    center := ll
    zoom := zoom
    pixelOrigin := (Map.project ll zoom).subtract (s.size.divideBy 2)
    panePos := ⟨0, 0⟩
    events := s.events ++ ["moveend"] }

/-- The options argument of Map.panBy. -/
structure PanOptions where
  animate : Bool := true
  duration : ℝ := 0.25

/-- Embeds Map.panBy: the pane moves to its current position minus the
requested pixel offset (immediately without animation, and the animated
path settles at the same target position), then moveend fires. The
bookkeeping fields center, zoom and pixelOrigin are not touched. -/
def Map.panBy (s : MapState) (off : Point) (_opts : PanOptions) : MapState :=
  { s with
    panePos := s.panePos.subtract off
    events := s.events ++ ["moveend"] }

/-- Embeds Map.setZoom: setView at the current center. -/
def Map.setZoom (s : MapState) (zoom : ℝ) : MapState :=
  Map.setView s s.center zoom

/-- Embeds Map.zoomIn. -/
def Map.zoomIn (s : MapState) (delta : ℝ) : MapState :=
  Map.setZoom s (s.zoom + delta)

/-- Embeds Map.zoomOut. -/
def Map.zoomOut (s : MapState) (delta : ℝ) : MapState :=
  Map.setZoom s (s.zoom - delta)

/-- The view mutations available on a map instance, with a fixed viewport
size. -/
inductive MapOp where
  | setView (ll : LatLng) (zoom : ℝ)
  | setZoom (zoom : ℝ)
  | zoomIn (delta : ℝ)
  | zoomOut (delta : ℝ)
  | panBy (off : Point) (opts : PanOptions)

/-- Run one view mutation. -/
def applyOp (s : MapState) : MapOp → MapState
  | .setView ll z => Map.setView s ll z
  | .setZoom z => Map.setZoom s z
  | .zoomIn d => Map.zoomIn s d
  | .zoomOut d => Map.zoomOut s d
  | .panBy off opts => Map.panBy s off opts

/-- Run a sequence of view mutations from left to right. -/
def applyOps (s : MapState) (ops : List MapOp) : MapState :=
  ops.foldl applyOp s

/-- The documented derivation of the pixel origin from the rest of the
view state: the projected center at the current zoom minus half the
viewport size. -/
def viewInvariant (s : MapState) : Prop :=
  s.pixelOrigin = (Map.project s.center s.zoom).subtract (s.size.divideBy 2)

/- ===================== Tile grid reconciliation ======================== -/

/-- A tile key: wrapped x, y, zoom. -/
abbrev TileKey := ℤ × ℤ × ℤ

/-- Modelled from the spec: Point floor and ceil are called by
TileLayer._update on the tile-size-scaled pixel bounds but are absent from
the source Point class; the spec directs an implementer to add them as
componentwise floor and ceil, which is what the integer interval below
uses. With them, this is the set of keys the double loop of
TileLayer._update inserts into tilesToLoad: x from the floor of min.x over
tileSize to the ceiling of max.x over tileSize inclusive, likewise y, each
x wrapped by _wrapX, duplicates collapsing as they do in the tilesToLoad
object. -/
def requiredTiles (bounds : Bounds) (zoom : ℕ) (tileSize : ℝ) :
    Finset TileKey :=
  ((Finset.Icc ⌊bounds.min.x / tileSize⌋ ⌈bounds.max.x / tileSize⌉) ×ˢ
    (Finset.Icc ⌊bounds.min.y / tileSize⌋ ⌈bounds.max.y / tileSize⌉)).image
    (fun xy => (wrapX xy.1 zoom, xy.2, (zoom : ℤ)))

/-- The outcome of one TileLayer._update reconciliation pass: the keys
whose elements were removed, the keys newly created, and the keys resident
afterwards. -/
structure TileDiff where
  removed : Finset TileKey
  added : Finset TileKey
  resident : Finset TileKey

/-- Embeds the reconciliation loops of TileLayer._update: resident keys
absent from tilesToLoad are removed, keys of tilesToLoad not yet resident
are created, and the tiles table afterwards holds exactly the kept keys
together with the created ones. -/
def TileLayer.update (resident : Finset TileKey) (bounds : Bounds)
    (zoom : ℕ) (tileSize : ℝ) : TileDiff :=
  let req := requiredTiles bounds zoom tileSize
  { removed := resident.filter (fun k => k ∉ req)
    added := req.filter (fun k => k ∉ resident)
    resident := resident.filter (fun k => k ∈ req) ∪
      req.filter (fun k => k ∉ resident) }

/-- Embeds the start of TileLayer._update as the source dispatches it:
bounds.min.divideBy(tileSize).floor() first resolves the name floor
against the Point method table, and .ceil() the name ceil; a missing name
yields undefined and the call throws a TypeError before any tile work
happens. -/
def TileLayer.updateRun (resident : Finset TileKey) (bounds : Bounds)
    (zoom : ℕ) (tileSize : ℝ) : Except String TileDiff :=
  if "floor" ∈ Point.methodNames then
    if "ceil" ∈ Point.methodNames then
      .ok (TileLayer.update resident bounds zoom tileSize)
    else .error "TypeError: ceil is not a function"
  else .error "TypeError: floor is not a function"

end

/- ===================== Helper lemmas =================================== -/

theorem tmod_neg_left (m : ℕ) (b : ℤ) :
    Int.tmod (-(m : ℤ)) b = -(Int.tmod (m : ℤ) b) := by
  match m, b with
  | 0, b => simp
  | (k+1), .ofNat n => rfl
  | (k+1), .negSucc n => rfl

theorem tmod_gt_neg (a : ℤ) {b : ℤ} (hb : 0 < b) : -b < a.tmod b := by
  rcases le_or_lt 0 a with h | h
  · have h0 : 0 ≤ a.tmod b := Int.tmod_nonneg b h
    linarith
  · obtain ⟨m, rfl⟩ : ∃ m : ℕ, a = -(m : ℤ) := ⟨a.natAbs, by omega⟩
    rw [tmod_neg_left]
    have h1 : Int.tmod (m : ℤ) b < b := Int.tmod_lt_of_pos _ hb
    omega

theorem applyOp_invariant (s : MapState) (op : MapOp) (h : viewInvariant s) :
    viewInvariant (applyOp s op) := by
  cases op with
  | setView ll z => rfl
  | setZoom z => rfl
  | zoomIn d => rfl
  | zoomOut d => rfl
  | panBy off opts => exact h

theorem applyOps_invariant (ops : List MapOp) :
    ∀ s : MapState, viewInvariant s → viewInvariant (applyOps s ops) := by
  induction ops with
  | nil => exact fun _ h => h
  | cons op rest ih => exact fun s h => ih (applyOp s op) (applyOp_invariant s op h)

/- ===================== Claim theorems ================================== -/

/-- C6: for every integer x, including negative values, and every natural
zoom, the wrapped tile coordinate wrapX x zoom lies in the half-open
interval from 0 to 2 to the zoom. -/
theorem wrapX_mem_range (x : ℤ) (zoom : ℕ) :
    0 ≤ wrapX x zoom ∧ wrapX x zoom < 2 ^ zoom := by
  have hw : (0 : ℤ) < 2 ^ zoom := by positivity
  have h1 : -(2 ^ zoom : ℤ) < x.tmod (2 ^ zoom) := tmod_gt_neg x hw
  unfold wrapX
  exact ⟨Int.tmod_nonneg _ (by linarith), Int.tmod_lt_of_pos _ hw⟩

/-- C4 counterexample: constructing a LatLng from positive infinity and
zero succeeds and stores the infinity, although positive infinity is not a
finite number, so construction does not fail on every non-finite
component. -/
theorem latLng_make_posInf_ok :
    LatLngJS.make .posInf (.finite 0) = .ok ⟨.posInf, .finite 0⟩ ∧
    JSNumber.isFinite .posInf = false := ⟨rfl, rfl⟩

/-- C4 (amended): construction fails with the Invalid LatLng error if and
only if at least one component is NaN; otherwise, in particular for two
finite components, it succeeds and stores both components unchanged. -/
theorem latLng_make_spec (lat lng : JSNumber) :
    (LatLngJS.make lat lng = .error "Invalid LatLng" ↔
      (lat.isNaN = true ∨ lng.isNaN = true)) ∧
    (lat.isNaN = false → lng.isNaN = false →
      LatLngJS.make lat lng = .ok ⟨lat, lng⟩) ∧
    (lat.isFinite = true → lng.isFinite = true →
      LatLngJS.make lat lng = .ok ⟨lat, lng⟩) := by
  cases lat <;> cases lng <;>
    simp [LatLngJS.make, JSNumber.isNaN, JSNumber.isFinite]

/-- Witness for the amended LatLng construction theorem at two concrete
finite numbers. -/
theorem latLng_make_spec_witness :
    LatLngJS.make (.finite 3) (.finite 4) = .ok ⟨.finite 3, .finite 4⟩ :=
  (latLng_make_spec (.finite 3) (.finite 4)).2.2 rfl rfl

/-- C8: calling off with an event-type string throws a TypeError, because
the source evaluates types.flat() and a string has no flat method, instead
of removing the listeners registered for that type. -/
theorem off_string_throws :
    Evented.off [("moveend", [1])] (.str "moveend") (some 1) =
      .error "TypeError: types.flat is not a function" := rfl

/-- C5: the Point class declares no floor and no ceil method, so the tile
range computation of TileLayer._update, which calls floor and ceil on the
tile-size-scaled pixel bounds, throws a TypeError for every pixel bounds
instead of being well-defined. -/
theorem updateRun_always_fails :
    TileLayer.updateRun ∅ (Bounds.ofCorners ⟨0, 0⟩ ⟨600, 400⟩) 12 256 =
      .error "TypeError: floor is not a function" := by
  have h : ¬ ("floor" ∈ Point.methodNames) := by decide
  unfold TileLayer.updateRun
  rw [if_neg h]

/-- C7: panBy moves the pane position by the negated pixel offset relative
to its current position, leaves center, zoom and pixelOrigin unchanged,
and fires moveend. -/
theorem panBy_effects (s : MapState) (off : Point) (opts : PanOptions) :
    (Map.panBy s off opts).panePos = s.panePos.subtract off ∧
    (Map.panBy s off opts).center = s.center ∧
    (Map.panBy s off opts).zoom = s.zoom ∧
    (Map.panBy s off opts).pixelOrigin = s.pixelOrigin ∧
    (Map.panBy s off opts).events = s.events ++ ["moveend"] :=
  ⟨rfl, rfl, rfl, rfl, rfl⟩

/-- C1: starting from a state satisfying the pixel-origin derivation
invariant, any sequence of setView, setZoom, zoomIn, zoomOut and panBy
operations preserves it; moreover every setView recomputes the pixel
origin from the new center and zoom, resets the pane transform to the
identity, and fires moveend. -/
theorem view_invariant_preserved (s : MapState) (ops : List MapOp)
    (h : viewInvariant s) :
    viewInvariant (applyOps s ops) ∧
    ∀ ll z,
      (Map.setView s ll z).pixelOrigin =
        (Map.project ll z).subtract (s.size.divideBy 2) ∧
      (Map.setView s ll z).panePos = ⟨0, 0⟩ ∧
      (Map.setView s ll z).events = s.events ++ ["moveend"] :=
  ⟨applyOps_invariant ops s h, fun _ _ => ⟨rfl, rfl, rfl⟩⟩

/-- Witness for the view invariant theorem: a concrete freshly set view
satisfies the invariant, and it still holds after a pan and a zoom. -/
theorem view_invariant_preserved_witness :
    viewInvariant
      (Map.setView ⟨⟨0, 0⟩, 1, ⟨600, 400⟩, ⟨0, 0⟩, ⟨0, 0⟩, []⟩ ⟨0, 0⟩ 2) ∧
    viewInvariant
      (applyOps
        (Map.setView ⟨⟨0, 0⟩, 1, ⟨600, 400⟩, ⟨0, 0⟩, ⟨0, 0⟩, []⟩ ⟨0, 0⟩ 2)
        [MapOp.panBy ⟨5, 7⟩ {}, MapOp.zoomIn 1]) :=
  ⟨rfl,
    (view_invariant_preserved
      (Map.setView ⟨⟨0, 0⟩, 1, ⟨600, 400⟩, ⟨0, 0⟩, ⟨0, 0⟩, []⟩ ⟨0, 0⟩ 2)
      [MapOp.panBy ⟨5, 7⟩ {}, MapOp.zoomIn 1] rfl).1⟩

/-- C2: latLngToContainerPoint is the rounded difference of the projected
point and the pixel origin; after setView at (51.505, -0.09) and zoom 12
on a 600 by 400 viewport, the same coordinate maps to the viewport center
(300, 200). -/
theorem latLngToContainerPoint_spec :
    (∀ (s : MapState) (ll : LatLng),
      Map.latLngToContainerPoint s ll =
        ((Map.project ll s.zoom).subtract s.pixelOrigin).round) ∧
    ∀ s : MapState, s.size = ⟨600, 400⟩ →
      Map.latLngToContainerPoint (Map.setView s ⟨51.505, -0.09⟩ 12)
        ⟨51.505, -0.09⟩ = ⟨300, 200⟩ := by
  refine ⟨fun s ll => rfl, fun s hs => ?_⟩
  have hstep :
      Map.latLngToContainerPoint (Map.setView s ⟨51.505, -0.09⟩ 12)
        ⟨51.505, -0.09⟩ =
      ((Map.project ⟨51.505, -0.09⟩ 12).subtract
        ((Map.project ⟨51.505, -0.09⟩ 12).subtract (s.size.divideBy 2))).round :=
    rfl
  rw [hstep, hs]
  show Point.round
      ⟨(Map.project ⟨51.505, -0.09⟩ 12).x - ((Map.project ⟨51.505, -0.09⟩ 12).x - 600 / 2),
       (Map.project ⟨51.505, -0.09⟩ 12).y - ((Map.project ⟨51.505, -0.09⟩ 12).y - 400 / 2)⟩ =
      (⟨300, 200⟩ : Point)
  have hx : (Map.project ⟨51.505, -0.09⟩ 12).x -
      ((Map.project ⟨51.505, -0.09⟩ 12).x - 600 / 2) = (300 : ℝ) := by ring
  have hy : (Map.project ⟨51.505, -0.09⟩ 12).y -
      ((Map.project ⟨51.505, -0.09⟩ 12).y - 400 / 2) = (200 : ℝ) := by ring
  rw [hx, hy]
  have h300 : jsRound (300 : ℝ) = 300 := by
    rw [jsRound, Int.floor_eq_iff]; norm_num
  have h200 : jsRound (200 : ℝ) = 200 := by
    rw [jsRound, Int.floor_eq_iff]; norm_num
  rw [Point.round, h300, h200]
  norm_num

/-- Witness for the container-point theorem at a concrete map state with a
600 by 400 viewport. -/
theorem latLngToContainerPoint_spec_witness :
    (⟨⟨0, 0⟩, 1, ⟨600, 400⟩, ⟨0, 0⟩, ⟨0, 0⟩, []⟩ : MapState).size =
      ⟨600, 400⟩ ∧
    Map.latLngToContainerPoint
      (Map.setView (⟨⟨0, 0⟩, 1, ⟨600, 400⟩, ⟨0, 0⟩, ⟨0, 0⟩, []⟩ : MapState)
        ⟨51.505, -0.09⟩ 12) ⟨51.505, -0.09⟩ = ⟨300, 200⟩ :=
  ⟨rfl, latLngToContainerPoint_spec.2
    (⟨⟨0, 0⟩, 1, ⟨600, 400⟩, ⟨0, 0⟩, ⟨0, 0⟩, []⟩ : MapState) rfl⟩

theorem tile_update_resident_eq (resident : Finset TileKey) (bounds : Bounds)
    (zoom : ℕ) (tileSize : ℝ) :
    (TileLayer.update resident bounds zoom tileSize).resident =
      requiredTiles bounds zoom tileSize := by
  ext k
  simp only [TileLayer.update, Finset.mem_union, Finset.mem_filter]
  tauto

/-- C9: running the TileLayer._update reconciliation a second time against
an unchanged view snapshot (same pixel bounds, zoom and tile size) removes
no tile, adds no tile, and leaves the resident tile-key set exactly as the
first run left it. -/
theorem tile_update_second_run_noop (resident : Finset TileKey)
    (bounds : Bounds) (zoom : ℕ) (tileSize : ℝ) :
    (TileLayer.update (TileLayer.update resident bounds zoom tileSize).resident
        bounds zoom tileSize).removed = ∅ ∧
    (TileLayer.update (TileLayer.update resident bounds zoom tileSize).resident
        bounds zoom tileSize).added = ∅ ∧
    (TileLayer.update (TileLayer.update resident bounds zoom tileSize).resident
        bounds zoom tileSize).resident =
      (TileLayer.update resident bounds zoom tileSize).resident := by
  rw [tile_update_resident_eq]
  have hrm : (requiredTiles bounds zoom tileSize).filter
      (fun k => k ∉ requiredTiles bounds zoom tileSize) = ∅ :=
    Finset.filter_eq_empty_iff.mpr (fun _ hx => not_not_intro hx)
  have hkeep : (requiredTiles bounds zoom tileSize).filter
      (fun k => k ∈ requiredTiles bounds zoom tileSize) =
      requiredTiles bounds zoom tileSize :=
    Finset.filter_true_of_mem (fun _ hx => hx)
  refine ⟨?_, ?_, ?_⟩
  · show (requiredTiles bounds zoom tileSize).filter
        (fun k => k ∉ requiredTiles bounds zoom tileSize) = ∅
    exact hrm
  · show (requiredTiles bounds zoom tileSize).filter
        (fun k => k ∉ requiredTiles bounds zoom tileSize) = ∅
    exact hrm
  · show (requiredTiles bounds zoom tileSize).filter
          (fun k => k ∈ requiredTiles bounds zoom tileSize) ∪
        (requiredTiles bounds zoom tileSize).filter
          (fun k => k ∉ requiredTiles bounds zoom tileSize) =
      requiredTiles bounds zoom tileSize
    rw [hrm, hkeep, Finset.union_empty]

theorem listStartsWith_append (pat t : List Char) :
    listStartsWith pat (pat ++ t) = true := by
  induction pat with
  | nil => rfl
  | cons a pa ih => simp [listStartsWith, ih]

theorem replaceFirst_of_startsWith (pat rep : List Char) (s : List Char)
    (h : listStartsWith pat s = true) :
    replaceFirst pat rep s = rep ++ s.drop pat.length := by
  cases s with
  | nil =>
      cases pat with
      | nil => simp [replaceFirst, listStartsWith]
      | cons a pa => simp [listStartsWith] at h
  | cons c rest => simp [replaceFirst, h]

theorem replaceFirst_at_head (pat rep q : List Char) :
    replaceFirst pat rep (pat ++ q) = rep ++ q := by
  rw [replaceFirst_of_startsWith pat rep (pat ++ q) (listStartsWith_append pat q)]
  rw [List.drop_left]

theorem replaceFirst_first_occurrence (pat rep q : List Char)
    (p : List Char)
    (hocc : ∀ i, i < p.length →
      listStartsWith pat ((p ++ pat ++ q).drop i) = false) :
    replaceFirst pat rep (p ++ pat ++ q) = p ++ rep ++ q := by
  induction p with
  | nil =>
      show replaceFirst pat rep (pat ++ q) = rep ++ q
      exact replaceFirst_at_head pat rep q
  | cons c p' ih =>
      have h0 : listStartsWith pat (c :: (p' ++ pat ++ q)) = false := by
        have := hocc 0 (by simp)
        simpa using this
      have hgoal :
          replaceFirst pat rep (c :: (p' ++ pat ++ q)) =
            c :: replaceFirst pat rep (p' ++ pat ++ q) := by
        have h0' : listStartsWith pat (c :: (p' ++ (pat ++ q))) = false := by
          simpa using h0
        simp [replaceFirst, h0']
      show replaceFirst pat rep (c :: (p' ++ pat ++ q)) = c :: (p' ++ rep ++ q)
      rw [hgoal, ih (fun i hi => by
        have := hocc (i + 1) (by simp; omega)
        simpa using this)]

theorem replaceFirst_of_not_contains (pat rep : List Char) (s : List Char)
    (h : containsSub pat s = false) :
    replaceFirst pat rep s = s := by
  induction s with
  | nil =>
      have h1 : listStartsWith pat [] = false := by simpa [containsSub] using h
      simp [replaceFirst, h1]
  | cons c rest ih =>
      have h1 : listStartsWith pat (c :: rest) = false := by
        simp [containsSub] at h
        exact h.1
      have h2 : containsSub pat rest = false := by
        simp [containsSub] at h
        exact h.2
      simp [replaceFirst, h1, ih h2]

/-- C10: the tile URL builder substitutes only the first occurrence of
each placeholder. For any template split as p ++ pat ++ q whose first
occurrence of the placeholder pat starts right after p, the single
replace pass rewrites exactly that occurrence and copies q, including any
later duplicate occurrence, literally; a template without the placeholder
passes through unchanged; and on a concrete template with duplicated {x}
and {z} the builder leaves the later duplicates in the output. -/
theorem getTileUrl_first_occurrence :
    (∀ (pat rep q p : List Char),
      (∀ i, i < p.length →
        listStartsWith pat ((p ++ pat ++ q).drop i) = false) →
      replaceFirst pat rep (p ++ pat ++ q) = p ++ rep ++ q) ∧
    (∀ (pat rep s : List Char),
      containsSub pat s = false → replaceFirst pat rep s = s) ∧
    TileLayer.getTileUrl "https://x/{z}/{x}/{y}/{x}{z}.png" 3 5 4 =
      "https://x/4/3/5/{x}{z}.png" := by
  refine ⟨fun pat rep q p hocc =>
      replaceFirst_first_occurrence pat rep q p hocc,
    fun pat rep s h => replaceFirst_of_not_contains pat rep s h, ?_⟩
  decide

/-- Witness for the first-occurrence theorem at concrete templates: the
duplicate placeholder after the first occurrence stays literal, and a
placeholder-free string is unchanged. -/
theorem getTileUrl_first_occurrence_witness :
    ((∀ i, i < ("a/".data).length →
        listStartsWith "{x}".data
          ((("a/".data) ++ "{x}".data ++ "/{x}".data).drop i) = false) ∧
      containsSub "{q}".data "abc".data = false) ∧
    (replaceFirst "{x}".data "7".data
        (("a/".data) ++ "{x}".data ++ "/{x}".data) =
      ("a/".data) ++ "7".data ++ "/{x}".data ∧
      replaceFirst "{q}".data "7".data "abc".data = "abc".data) :=
  ⟨⟨by decide, by decide⟩,
    getTileUrl_first_occurrence.1 "{x}".data "7".data "/{x}".data "a/".data
      (by decide),
    getTileUrl_first_occurrence.2.1 "{q}".data "7".data "abc".data
      (by decide)⟩

theorem point_eq (p q : Point) (hx : p.x = q.x) (hy : p.y = q.y) : p = q := by
  cases p; cases q; simp_all

theorem earthRadius_ne : (earthRadius : ℝ) ≠ 0 := by
  norm_num [earthRadius]

theorem scale_div_ne (z : ℝ) : CRS.scale z / earthRadius ≠ 0 := by
  have h2 : (0 : ℝ) < (2 : ℝ) ^ z := Real.rpow_pos_of_pos (by norm_num) z
  have hs : 0 < CRS.scale z := by
    rw [CRS.scale]; positivity
  have hR : (0 : ℝ) < earthRadius := by norm_num [earthRadius]
  exact ne_of_gt (div_pos hs hR)

theorem map_unproject_project (ll : LatLng) (z : ℝ) :
    Map.unproject (Map.project ll z) z = CRS.unproject (CRS.project ll) := by
  rw [Map.unproject, Map.project]
  congr 1
  apply point_eq
  · show (CRS.project ll).x * (CRS.scale z / earthRadius) /
        (CRS.scale z / earthRadius) = (CRS.project ll).x
    exact mul_div_cancel_right₀ _ (scale_div_ne z)
  · show (CRS.project ll).y * (CRS.scale z / earthRadius) /
        (CRS.scale z / earthRadius) = (CRS.project ll).y
    exact mul_div_cancel_right₀ _ (scale_div_ne z)

theorem crs_roundtrip_lng (ll : LatLng) :
    (CRS.unproject (CRS.project ll)).lng = ll.lng := by
  show earthRadius * ll.lng * (Real.pi / 180) * (180 / Real.pi) / earthRadius
      = ll.lng
  have hπ : Real.pi ≠ 0 := Real.pi_ne_zero
  have hR : (earthRadius : ℝ) ≠ 0 := earthRadius_ne
  field_simp

theorem crs_roundtrip_lat (ll : LatLng) (h : |ll.lat| ≤ maxLatitude) :
    (CRS.unproject (CRS.project ll)).lat = ll.lat := by
  obtain ⟨h1, h2⟩ := abs_le.mp h
  have hπ : (0 : ℝ) < Real.pi := Real.pi_pos
  have hπ0 : Real.pi ≠ 0 := Real.pi_ne_zero
  have hclamp : max (min maxLatitude ll.lat) (-maxLatitude) = ll.lat := by
    rw [min_eq_right h2, max_eq_left h1]
  simp only [CRS.project, CRS.unproject]
  rw [hclamp]
  set φ := ll.lat * (Real.pi / 180) with hφdef
  set s := Real.sin φ with hsdef
  have hM : maxLatitude < 90 := by norm_num [maxLatitude]
  have h180 : (0 : ℝ) < Real.pi / 180 := by positivity
  have hφabs : |φ| < Real.pi / 2 := by
    have habs : |φ| = |ll.lat| * (Real.pi / 180) := by
      rw [hφdef, abs_mul, abs_of_pos h180]
    rw [habs]
    have hlt : |ll.lat| < 90 := lt_of_le_of_lt h hM
    calc |ll.lat| * (Real.pi / 180) < 90 * (Real.pi / 180) :=
          mul_lt_mul_of_pos_right hlt h180
      _ = Real.pi / 2 := by ring
  obtain ⟨hφl, hφr⟩ := abs_lt.mp hφabs
  have hcosφ : 0 < Real.cos φ := Real.cos_pos_of_mem_Ioo ⟨hφl, hφr⟩
  have hsc : s ^ 2 + Real.cos φ ^ 2 = 1 := Real.sin_sq_add_cos_sq φ
  have hslt : s < 1 := by nlinarith
  have hsgt : -1 < s := by nlinarith
  have h1sp : (0 : ℝ) < 1 - s := by linarith
  have h1sq : (0 : ℝ) < 1 + s := by linarith
  have hu : 0 < (1 + s) / (1 - s) := div_pos h1sq h1sp
  set θ := Real.pi / 4 + φ / 2 with hθdef
  have hθ0 : 0 < θ := by rw [hθdef]; linarith
  have hθ2 : θ < Real.pi / 2 := by rw [hθdef]; linarith
  have hπ2 : Real.pi / 2 < Real.pi := by linarith
  have hsinθ : 0 < Real.sin θ := Real.sin_pos_of_pos_of_lt_pi hθ0 (hθ2.trans hπ2)
  have hcosθ : 0 < Real.cos θ := Real.cos_pos_of_mem_Ioo ⟨by linarith, hθ2⟩
  have hcos2θ : Real.cos (2 * θ) = -s := by
    have h2t : 2 * θ = φ + Real.pi / 2 := by rw [hθdef]; ring
    rw [h2t, Real.cos_add_pi_div_two, hsdef]
  have hcosSq : Real.cos θ ^ 2 = (1 - s) / 2 := by
    rw [Real.cos_sq, hcos2θ]; ring
  have hsinSq : Real.sin θ ^ 2 = (1 + s) / 2 := by
    rw [Real.sin_sq, hcosSq]; ring
  have hfrac : (1 + s) / (1 - s) = Real.sin θ ^ 2 / Real.cos θ ^ 2 := by
    rw [hsinSq, hcosSq]
    field_simp
  have hsqrt : Real.sqrt ((1 + s) / (1 - s)) = Real.tan θ := by
    rw [hfrac, Real.sqrt_div (sq_nonneg (Real.sin θ)),
      Real.sqrt_sq hsinθ.le, Real.sqrt_sq hcosθ.le, Real.tan_eq_sin_div_cos]
  have hexp : Real.exp (Real.log ((1 + s) / (1 - s)) / 2) =
      Real.sqrt ((1 + s) / (1 - s)) := by
    have hv : 0 < Real.sqrt ((1 + s) / (1 - s)) := Real.sqrt_pos.mpr hu
    have hlog : Real.log ((1 + s) / (1 - s)) =
        2 * Real.log (Real.sqrt ((1 + s) / (1 - s))) := by
      conv_lhs => rw [← Real.sq_sqrt hu.le]
      rw [Real.log_pow]
      norm_num
    rw [hlog, mul_div_cancel_left₀ _ (two_ne_zero), Real.exp_log hv]
  have hR : (earthRadius : ℝ) ≠ 0 := earthRadius_ne
  have hRR : earthRadius * Real.log ((1 + s) / (1 - s)) / 2 / earthRadius =
      Real.log ((1 + s) / (1 - s)) / 2 := by
    field_simp
    ring
  rw [hRR, hexp, hsqrt, Real.arctan_tan (by linarith) hθ2, hθdef, hφdef]
  field_simp
  ring

/-- C3: for every LatLng with latitude of magnitude at most 85.0511287798
and every zoom between 0 and 20, the composite Map.unproject of
Map.project returns the original coordinate within 1e-6 degrees in each
component (over the reals the round trip is exact, so the bound holds). -/
theorem unproject_project_roundtrip (ll : LatLng) (z : ℝ)
    (hlat : |ll.lat| ≤ 85.0511287798) (_hz0 : 0 ≤ z) (_hz1 : z ≤ 20) :
    |(Map.unproject (Map.project ll z) z).lat - ll.lat| ≤ 1e-6 ∧
    |(Map.unproject (Map.project ll z) z).lng - ll.lng| ≤ 1e-6 := by
  have hml : |ll.lat| ≤ maxLatitude := by
    unfold maxLatitude
    exact hlat
  rw [map_unproject_project, crs_roundtrip_lat ll hml, crs_roundtrip_lng ll]
  norm_num

/-- Witness for the projection round trip at the origin and zoom zero. -/
theorem unproject_project_roundtrip_witness :
    (|(0 : ℝ)| ≤ 85.0511287798 ∧ (0 : ℝ) ≤ 0 ∧ (0 : ℝ) ≤ 20) ∧
    (|(Map.unproject (Map.project ⟨0, 0⟩ 0) 0).lat - (0 : ℝ)| ≤ 1e-6 ∧
      |(Map.unproject (Map.project ⟨0, 0⟩ 0) 0).lng - (0 : ℝ)| ≤ 1e-6) :=
  ⟨⟨by norm_num, le_rfl, by norm_num⟩,
    unproject_project_roundtrip ⟨0, 0⟩ 0 (by norm_num) le_rfl (by norm_num)⟩
